import Mathlib

/-!
Verification development for the Claude Code Model Router repository
(`src/config.ts`, the router module, and its type declarations).

The TypeScript source is shallowly embedded: JavaScript objects used as
string-keyed maps become association lists (`alookup` models property
access, returning the first binding as JS objects have unique keys);
JavaScript truthiness tests on strings and numbers are made explicit
(`s = ""` and `n = 0` are the falsy cases that occur); thrown
`RouterError`s become the `Except` error component; the byte stream read
from the upstream response body becomes an explicit list of text chunks.
-/

namespace ModelRouter

/-- Association-list lookup; models JavaScript object property access
(`obj[key]`), which yields the unique binding for the key or `undefined`. -/
def alookup {α : Type} : List (String × α) → String → Option α
  | [], _ => none
  | p :: rest, k => if p.1 = k then some p.2 else alookup rest k

/-- ModelConfig from `types.d.ts`: one entry per supported provider/model. -/
structure ModelConfig where
  display_name : String
  provider : String
  model_id : String
  base_url : String
  api_key_env : String
  auth_header : Option String := none
  supports_streaming : Option Bool := none
  supports_tools : Option Bool := none
  max_tokens : Option Nat := none
  context_window : Option Nat := none
deriving DecidableEq

/-- The configuration state a `ConfigManager` is built from: the loaded
`models` and `aliases` maps of `RouterConfig`, plus the process
environment (`process.env`) from which `loadApiKeys` reads credentials. -/
structure RouterConfigState where
  models : List (String × ModelConfig)
  aliases : List (String × String)
  env : List (String × String)
deriving DecidableEq

/-- ConfigManager.loadApiKeys (config.ts): for each registered model, read
the environment variable named by its `api_key_env`; only truthy values
(present and nonempty) are stored in the credential map. -/
def loadApiKeys (models : List (String × ModelConfig)) (env : List (String × String)) :
    List (String × String) :=
  models.filterMap (fun p =>
    match alookup env p.2.api_key_env with
    | some k => if k = "" then none else some (p.1, k)
    | none => none)

/-- Credential store of a `ConfigManager`: populated once from the
environment by `loadApiKeys`. -/
def apiKeys (cfg : RouterConfigState) : List (String × String) :=
  loadApiKeys cfg.models cfg.env

/-- ConfigManager.resolveModelName (config.ts): a truthy alias entry wins;
otherwise the name is returned unchanged (the source's `models` check
returns `name` in both of its branches). The JS test `if (aliases[name])`
is falsy for a missing entry and for an empty-string target. -/
def resolveModelName (cfg : RouterConfigState) (name : String) : String :=
  match alookup cfg.aliases name with
  | some t => if t = "" then name else t
  | none => name

/-- ConfigManager.getModel (config.ts): direct model-name lookup first,
then one alias hop guarded by `if (aliasTarget && models[aliasTarget])`. -/
def getModel (cfg : RouterConfigState) (name : String) : Option ModelConfig :=
  match alookup cfg.models name with
  | some m => some m
  | none =>
    match alookup cfg.aliases name with
    | some t => if t = "" then none else alookup cfg.models t
    | none => none

/-- ConfigManager.getApiKey (config.ts): resolve the name, then read the
credential map. -/
def getApiKey (cfg : RouterConfigState) (modelName : String) : Option String :=
  alookup (apiKeys cfg) (resolveModelName cfg modelName)

/-- RouterError from the router module: message, HTTP status code, error
type discriminator. -/
structure RouterError where
  message : String
  statusCode : Nat
  errorType : String
deriving DecidableEq

/-- RouteInfo from `types.d.ts`: the resolved canonical name, its config,
and the credential. -/
structure RouteInfo where
  name : String
  config : ModelConfig
  apiKey : String
deriving DecidableEq

/-- Message of the invalid-model RouterError thrown by
`ModelRouter.resolveRoute`: it interpolates the requested name and the
comma-joined list of registered model keys (`Object.keys(models).join(', ')`). -/
def invalidModelMessage (cfg : RouterConfigState) (modelName : String) : String :=
  "Model \x27" ++ modelName ++ "\x27 not found. Available models: " ++
    String.intercalate ", " (cfg.models.map Prod.fst)

/-- Message of the authentication RouterError thrown by
`ModelRouter.resolveRoute` when no credential is configured. -/
def authErrorMessage (mc : ModelConfig) : String :=
  "API key not configured for model \x27" ++ mc.display_name ++
    "\x27. Please set the " ++ mc.api_key_env ++ " environment variable."

/-- ModelRouter.resolveRoute: resolve the requested name, look up the
model config (invalid_model / 400 if absent), look up the credential
(authentication_error / 401 if falsy), and assemble the RouteInfo. -/
def resolveRoute (cfg : RouterConfigState) (modelName : String) :
    Except RouterError RouteInfo :=
  let resolvedName := resolveModelName cfg modelName
  match getModel cfg resolvedName with
  | none =>
      .error ⟨invalidModelMessage cfg modelName, 400, "invalid_model"⟩
  | some modelConfig =>
      match getApiKey cfg resolvedName with
      | none => .error ⟨authErrorMessage modelConfig, 401, "authentication_error"⟩
      | some apiKey =>
          if apiKey = "" then
            .error ⟨authErrorMessage modelConfig, 401, "authentication_error"⟩
          else
            .ok ⟨resolvedName, modelConfig, apiKey⟩

/-- MessagesRequest, abstracted over everything except the two fields the
transformer touches: the body is a shallow copy of the inbound request, so
all fields other than `model` and `max_tokens` are carried opaquely in
`extra`. -/
structure MessagesRequest (α : Type) where
  model : String
  max_tokens : Option Nat
  extra : α
deriving DecidableEq

/-- Effective output-token ceiling used by `ModelRouter.buildRequestBody`:
`modelConfig.max_tokens || 8192` — a missing or zero (falsy) configured
value falls back to the hard-coded 8192. -/
def effectiveMaxTokens (mc : ModelConfig) : Nat :=
  match mc.max_tokens with
  | some n => if n = 0 then 8192 else n
  | none => 8192

/-- ModelRouter.buildRequestBody: shallow-copy the request, overwrite
`model` with the provider's upstream model id, and clamp `max_tokens`
down to the ceiling when the client-supplied value is truthy and exceeds
it (`if (body.max_tokens && body.max_tokens > maxTokens)`). -/
def buildRequestBody {α : Type} (request : MessagesRequest α) (modelConfig : ModelConfig) :
    MessagesRequest α :=
  let maxTokens := effectiveMaxTokens modelConfig
  { request with
    model := modelConfig.model_id,
    max_tokens :=
      match request.max_tokens with
      | some m => if m ≠ 0 ∧ maxTokens < m then some maxTokens else some m
      | none => none }

/-- Characters of a string literal; upstream stream text is modelled as
lists of characters. -/
def strChars (s : String) : List Char :=
  s.data

/-- Whitespace as recognised by JavaScript `String.prototype.trim` for the
character repertoire that can occur here (space, tab, LF, CR, VT, FF,
NBSP, BOM). -/
def jsWhitespace (c : Char) : Bool :=
  c = ' ' ∨ c = '\t' ∨ c = '\n' ∨ c = '\r' ∨ c = '\x0b' ∨ c = '\x0c' ∨
    c = '\u00A0' ∨ c = '\uFEFF'

/-- Truthiness of `event.trim()` / `buffer.trim()`: the trimmed string is
nonempty exactly when some character is not whitespace. -/
def jsTrimNonempty (l : List Char) : Bool :=
  l.any (fun c => !(jsWhitespace c))

/-- Decide whether a character list contains the SSE event delimiter
`"\n\n"` (two consecutive newlines), i.e. whether
`buffer.includes('\n\n')` holds. -/
def containsDD : List Char → Bool
  | [] => false
  | [_] => false
  | c1 :: c2 :: rest => if c1 = '\n' ∧ c2 = '\n' then true else containsDD (c2 :: rest)

/-- Core of the re-framing loop in `ModelRouter.forwardStream`: split a
buffer at every leftmost occurrence of `"\n\n"` (the repeated
`buffer.indexOf('\n\n')` / `slice` steps), returning the raw event bodies
in order together with the remainder retained in the buffer. -/
def sseSplit : List Char → List (List Char) × List Char
  | [] => ([], [])
  | [c] => ([], [c])
  | c1 :: c2 :: rest =>
      if c1 = '\n' ∧ c2 = '\n' then
        let r := sseSplit rest
        ([] :: r.1, r.2)
      else
        match sseSplit (c2 :: rest) with
        | ([], buf) => ([], c1 :: buf)
        | (e :: evs, buf) => ((c1 :: e) :: evs, buf)

/-- One drain of the inner `while (buffer.includes('\n\n'))` loop of
`forwardStream`: every complete event whose `trim()` is truthy is yielded
with the delimiter re-appended, and the remainder stays buffered. -/
def processBuffer (l : List Char) : List (List Char) × List Char :=
  let r := sseSplit l
  ((r.1.filter jsTrimNonempty).map (fun e => e ++ ['\n', '\n']), r.2)

/-- One iteration of the outer read loop of `forwardStream`: append the
decoded chunk to the buffer and drain complete events. -/
def streamStep (acc : List (List Char) × List Char) (chunk : List Char) :
    List (List Char) × List Char :=
  let r := processBuffer (acc.2 ++ chunk)
  (acc.1 ++ r.1, r.2)

/-- Events yielded and buffer remaining after the read loop of
`forwardStream` consumes the given sequence of upstream chunks. -/
def runStreamAux (chunks : List (List Char)) : List (List Char) × List Char :=
  chunks.foldl streamStep ([], [])

/-- Full event sequence yielded by the 2xx streaming path of
`forwardStream` for a given sequence of upstream chunks: the read loop's
events, then — if the remaining buffer's `trim()` is truthy — the
buffered remainder as one final event with the delimiter appended. -/
def runStream (chunks : List (List Char)) : List (List Char) :=
  let r := runStreamAux chunks
  r.1 ++ (if jsTrimNonempty r.2 then [r.2 ++ ['\n', '\n']] else [])

/-- JSON string escaping as performed by `JSON.stringify` for the
character classes that occur in router error messages. -/
def jsonEscapeChar (c : Char) : List Char :=
  if c = '"' then ['\\', '"']
  else if c = '\\' then ['\\', '\\']
  else if c = '\n' then ['\\', 'n']
  else if c = '\r' then ['\\', 'r']
  else if c = '\t' then ['\\', 't']
  else [c]

/-- JSON string literal for a message (quote, escape, quote). -/
def jsonQuote (s : String) : List Char :=
  ['"'] ++ (s.data.map jsonEscapeChar).flatten ++ ['"']

/-- The `JSON.stringify` image of the synthesized
`\x7b type: 'error', error: \x7b type, message \x7d \x7d` object. -/
def errorEventJson (etype : String) (msg : String) : List Char :=
  strChars "\x7b\"type\":\"error\",\"error\":\x7b\"type\":\"" ++ strChars etype ++
    strChars "\",\"message\":" ++ jsonQuote msg ++ strChars "\x7d\x7d"

/-- An SSE-framed synthesized error event as yielded by `forwardStream`:
`event: error`, a `data:` line carrying the JSON payload, and the
double-newline terminator. -/
def sseErrorEvent (etype : String) (msg : String) : List Char :=
  strChars "event: error\ndata: " ++ errorEventJson etype msg ++ strChars "\n\n"

/-- A thrown JavaScript `Error` as observed by the catch blocks: its
`name` and `message`. `none` stands for a thrown value that is not an
`instanceof Error`. -/
structure JsError where
  name : String
  message : String
deriving DecidableEq

/-- Catch block of `ModelRouter.forwardStream` (the timeout argument is
the gateway timeout in seconds; the source divides its millisecond value
by 1000 again before printing): an `AbortError` becomes a timeout_error
event naming the elapsed timeout, any other `Error` keeps the initial
`internal_error` type with the error's message, and a non-`Error` value
yields the generic unknown-error event. -/
def streamCatchEvent (timeoutSecs : Nat) (err : Option JsError) : List Char :=
  match err with
  | some e =>
      if e.name = "AbortError" then
        sseErrorEvent "timeout_error" ("Request timed out after " ++ toString timeoutSecs ++ "s")
      else
        sseErrorEvent "internal_error" e.message
  | none => sseErrorEvent "internal_error" "Unknown error"

/-- Response.ok of the Fetch API: status in the 2xx range. -/
def respOk (status : Nat) : Bool :=
  200 ≤ status ∧ status ≤ 299

/-- How the upstream response body behaves while being read: either the
reader reaches `done` after the listed chunks, or a read throws after the
listed chunks were delivered. -/
inductive StreamBody where
  | complete (chunks : List (List Char))
  | interrupted (chunks : List (List Char)) (err : Option JsError)
deriving DecidableEq

/-- Outcome of the `fetch` call made by `forwardStream`: the fetch itself
may reject, or a response arrives with a status, the message extracted
from a non-2xx error body (the `JSON.parse` fallback chain is abstracted
as this field), and an optional readable body. -/
inductive StreamOutcome where
  | fetchError (err : Option JsError)
  | response (status : Nat) (errorMessage : String) (body : Option StreamBody)
deriving DecidableEq

/-- ModelRouter.forwardStream after the route has been resolved: the
sequence of strings the generator yields for a given fetch outcome. A
non-2xx status yields exactly one api_error event; a missing body throws
a RouterError that the catch turns into an internal_error event; a
completed body is re-framed by the buffer loop with the trailing-buffer
flush; a mid-stream read failure yields the events drained so far
followed by the catch block's error event (no flush). -/
def forwardStream (timeoutSecs : Nat) (o : StreamOutcome) : List (List Char) :=
  match o with
  | .fetchError err => [streamCatchEvent timeoutSecs err]
  | .response status errorMessage body =>
      if respOk status then
        match body with
        | none => [streamCatchEvent timeoutSecs (some ⟨"RouterError", "No response body"⟩)]
        | some (.complete chunks) => runStream chunks
        | some (.interrupted chunks err) =>
            (runStreamAux chunks).1 ++ [streamCatchEvent timeoutSecs err]
      else
        [sseErrorEvent "api_error" errorMessage]

/-- Catch block of `ModelRouter.forwardRequest` (non-streaming): an
`AbortError` becomes timeout_error / 504, any other `Error` becomes
connection_error / 502 with its message, and a non-`Error` value becomes
internal_error / 500. -/
def requestCatchError (timeoutSecs : Nat) (err : Option JsError) : RouterError :=
  match err with
  | some e =>
      if e.name = "AbortError" then
        ⟨"Request timed out after " ++ toString timeoutSecs ++ "s", 504, "timeout_error"⟩
      else
        ⟨"Connection error: " ++ e.message, 502, "connection_error"⟩
  | none => ⟨"Unknown error occurred", 500, "internal_error"⟩

/-- Outcome of the `fetch` call made by `forwardRequest`: rejection, or a
response with status, extracted error message, and parsed JSON data. -/
inductive RequestOutcome (α : Type) where
  | fetchError (err : Option JsError)
  | response (status : Nat) (errorMessage : String) (data : α)
deriving DecidableEq

/-- ModelRouter.forwardRequest after the route has been resolved: a 2xx
response returns its parsed data, a non-2xx response fails with api_error
carrying the upstream status, and transport failures are normalized by
the catch block. -/
def forwardRequest {α : Type} (timeoutSecs : Nat) (provider : String)
    (o : RequestOutcome α) : Except RouterError α :=
  match o with
  | .fetchError err => .error (requestCatchError timeoutSecs err)
  | .response status errorMessage data =>
      if respOk status then .ok data
      else .error ⟨"Upstream API error (" ++ provider ++ "): " ++ errorMessage,
                   status, "api_error"⟩

/-! Helper lemmas about the stream re-framing buffer. -/

/-- When the splitter finds no delimiter, the whole input stays buffered. -/
theorem sseSplit_fst_nil : ∀ (l : List Char), (sseSplit l).1 = [] → (sseSplit l).2 = l
  | [] => by simp [sseSplit]
  | [c] => by simp [sseSplit]
  | c1 :: c2 :: rest => by
      by_cases h : c1 = '\n' ∧ c2 = '\n'
      · simp [sseSplit, h]
      · have ih := sseSplit_fst_nil (c2 :: rest)
        simp only [sseSplit, if_neg h]
        rcases hS : sseSplit (c2 :: rest) with ⟨evs, buf⟩
        cases evs with
        | nil =>
            have hb : buf = c2 :: rest := by
              have := ih (by rw [hS])
              rwa [hS] at this
            simp [hb]
        | cons e evs' => simp

/-- A buffer from which the splitter extracts no event contains no
delimiter. -/
theorem containsDD_false_of_fst_nil :
    ∀ (l : List Char), (sseSplit l).1 = [] → containsDD l = false
  | [] => by simp [containsDD]
  | [c] => by simp [containsDD]
  | c1 :: c2 :: rest => by
      by_cases h : c1 = '\n' ∧ c2 = '\n'
      · simp [sseSplit, h]
      · have ih := containsDD_false_of_fst_nil (c2 :: rest)
        simp only [sseSplit, if_neg h, containsDD]
        rcases hS : sseSplit (c2 :: rest) with ⟨evs, buf⟩
        cases evs with
        | nil =>
            intro _
            exact ih (by rw [hS])
        | cons e evs' => simp

/-- The leftover buffer of a split yields no further event when split
again. -/
theorem sseSplit_snd_fst_nil : ∀ (l : List Char), (sseSplit (sseSplit l).2).1 = []
  | [] => by simp [sseSplit]
  | [c] => by simp [sseSplit]
  | c1 :: c2 :: rest => by
      by_cases h : c1 = '\n' ∧ c2 = '\n'
      · have ih := sseSplit_snd_fst_nil rest
        simpa [sseSplit, h] using ih
      · have ih := sseSplit_snd_fst_nil (c2 :: rest)
        simp only [sseSplit, if_neg h]
        rcases hS : sseSplit (c2 :: rest) with ⟨evs, buf⟩
        rw [hS] at ih
        cases evs with
        | nil =>
            have hb : buf = c2 :: rest := by
              have := sseSplit_fst_nil (c2 :: rest) (by rw [hS])
              rwa [hS] at this
            simp only []
            show (sseSplit (c1 :: buf)).1 = []
            rw [hb]
            simp only [sseSplit, if_neg h]
            rw [hS]
        | cons e evs' => simpa using ih

/-- The leftover buffer of a split contains no delimiter. -/
theorem containsDD_sseSplit_snd (l : List Char) : containsDD (sseSplit l).2 = false :=
  containsDD_false_of_fst_nil _ (sseSplit_snd_fst_nil l)

/-- Splitting a concatenation equals splitting the first part and then
splitting its leftover buffer prefixed to the second part: the raw events
concatenate and the final leftover is that of the second split. This is
the chunk-boundary independence of the splitter. -/
theorem sseSplit_append : ∀ (a c : List Char),
    sseSplit (a ++ c) = ((sseSplit a).1 ++ (sseSplit ((sseSplit a).2 ++ c)).1,
                         (sseSplit ((sseSplit a).2 ++ c)).2)
  | [], c => by simp [sseSplit]
  | [x], c => by simp [sseSplit]
  | c1 :: c2 :: rest, c => by
      by_cases h : c1 = '\n' ∧ c2 = '\n'
      · have ih := sseSplit_append rest c
        simp [sseSplit, h, ih]
      · have ih := sseSplit_append (c2 :: rest) c
        rcases hS : sseSplit (c2 :: rest) with ⟨evs, buf⟩
        rw [hS] at ih
        cases evs with
        | nil =>
            have hb : buf = c2 :: rest := by
              have := sseSplit_fst_nil (c2 :: rest) (by rw [hS])
              rwa [hS] at this
            have ha : sseSplit (c1 :: c2 :: rest) = ([], c1 :: c2 :: rest) := by
              simp only [sseSplit, if_neg h]
              rw [hS, hb]
            rw [ha]
            simp
        | cons e evs' =>
            have ha : sseSplit (c1 :: c2 :: rest) = ((c1 :: e) :: evs', buf) := by
              simp only [sseSplit, if_neg h]
              rw [hS]
            have hl : sseSplit ((c1 :: c2 :: rest) ++ c) = ((c1 :: e) :: (evs' ++ (sseSplit (buf ++ c)).1), (sseSplit (buf ++ c)).2) := by
              show sseSplit (c1 :: ((c2 :: rest) ++ c)) = _
              have : (c2 :: rest) ++ c = c2 :: (rest ++ c) := by simp
              rw [this] at ih ⊢
              simp only [sseSplit, if_neg h]
              rw [ih]
              simp
            rw [hl, ha]
            simp

/-- Chunk-boundary independence of one drain of the event loop. -/
theorem processBuffer_append (a c : List Char) :
    processBuffer (a ++ c) =
      ((processBuffer a).1 ++ (processBuffer ((processBuffer a).2 ++ c)).1,
       (processBuffer ((processBuffer a).2 ++ c)).2) := by
  simp [processBuffer, sseSplit_append a c, List.filter_append, List.map_append]

/-- Generalized read-loop invariant: starting from any already-yielded
events and a delimiter-free buffer, folding the remaining chunks behaves
like draining the buffer concatenated with all remaining input. -/
theorem runStreamAux_go : ∀ (chunks : List (List Char)) (evs : List (List Char)) (buf : List Char),
    (sseSplit buf).1 = [] →
    chunks.foldl streamStep (evs, buf) =
      (evs ++ (processBuffer (buf ++ chunks.flatten)).1,
       (processBuffer (buf ++ chunks.flatten)).2)
  | [], evs, buf, h => by
      have h2 := sseSplit_fst_nil buf h
      simp [processBuffer, h, h2]
  | ch :: rest, evs, buf, h => by
      have hnext : (sseSplit (processBuffer (buf ++ ch)).2).1 = [] := by
        simpa [processBuffer] using sseSplit_snd_fst_nil (buf ++ ch)
      have ih := runStreamAux_go rest (evs ++ (processBuffer (buf ++ ch)).1)
        (processBuffer (buf ++ ch)).2 hnext
      have hstep : streamStep (evs, buf) ch =
          (evs ++ (processBuffer (buf ++ ch)).1, (processBuffer (buf ++ ch)).2) := rfl
      calc (ch :: rest).foldl streamStep (evs, buf)
      _ = rest.foldl streamStep (streamStep (evs, buf) ch) := by simp [List.foldl]
      _ = rest.foldl streamStep
            (evs ++ (processBuffer (buf ++ ch)).1, (processBuffer (buf ++ ch)).2) := by
            rw [hstep]
      _ = (evs ++ (processBuffer (buf ++ ch)).1 ++
             (processBuffer ((processBuffer (buf ++ ch)).2 ++ rest.flatten)).1,
           (processBuffer ((processBuffer (buf ++ ch)).2 ++ rest.flatten)).2) := ih
      _ = (evs ++ (processBuffer (buf ++ (ch :: rest).flatten)).1,
           (processBuffer (buf ++ (ch :: rest).flatten)).2) := by
            have hpa := processBuffer_append (buf ++ ch) rest.flatten
            simp only [List.flatten_cons, ← List.append_assoc]
            rw [hpa]
            simp

/-- The read loop's events and final buffer depend only on the
concatenation of the upstream chunks. -/
theorem runStreamAux_eq (chunks : List (List Char)) :
    runStreamAux chunks = processBuffer chunks.flatten := by
  have := runStreamAux_go chunks [] [] (by simp [sseSplit])
  simpa [runStreamAux, processBuffer] using this

/-- The full yielded event sequence depends only on the concatenation of
the upstream chunks. -/
theorem runStream_concat (chunks : List (List Char)) :
    runStream chunks = runStream [chunks.flatten] := by
  simp [runStream, runStreamAux_eq]

/-! Helper lemmas about association lists and the credential store. -/

/-- A successful lookup exhibits a member of the list. -/
theorem alookup_mem {α : Type} : ∀ (l : List (String × α)) (n : String) (k : α),
    alookup l n = some k → (n, k) ∈ l
  | [], _, _, h => by simp [alookup] at h
  | p :: rest, n, k, h => by
      by_cases hp : p.1 = n
      · simp only [alookup, if_pos hp] at h
        have hpk : p = (n, k) := by
          cases p
          simp_all
        rw [← hpk]
        exact List.mem_cons_self _ _
      · simp only [alookup, if_neg hp] at h
        exact List.mem_cons_of_mem _ (alookup_mem rest n k h)

/-- Lookup succeeds exactly on the keys of the list. -/
theorem alookup_isSome_iff {α : Type} : ∀ (l : List (String × α)) (n : String),
    (alookup l n).isSome ↔ n ∈ l.map Prod.fst
  | [], n => by simp [alookup]
  | p :: rest, n => by
      by_cases hp : p.1 = n
      · simp [alookup, hp]
      · simp only [alookup, if_neg hp, List.map_cons, List.mem_cons]
        rw [alookup_isSome_iff rest n]
        constructor
        · exact Or.inr
        · rintro (h | h)
          · exact absurd h.symm hp
          · exact h

/-- Every credential stored by `loadApiKeys` is nonempty: the source only
stores truthy environment values. -/
theorem loadApiKeys_snd_ne_empty (models : List (String × ModelConfig))
    (env : List (String × String)) :
    ∀ q ∈ loadApiKeys models env, q.2 ≠ "" := by
  intro q hq
  simp only [loadApiKeys, List.mem_filterMap] at hq
  obtain ⟨p, _, hf⟩ := hq
  rcases he : alookup env p.2.api_key_env with _ | v
  · rw [he] at hf
    simp at hf
  · rw [he] at hf
    by_cases hv : v = ""
    · simp [hv] at hf
    · simp only [if_neg hv, Option.some.injEq] at hf
      rw [← hf]
      exact hv

/-- A credential found in the store is nonempty. -/
theorem alookup_apiKeys_ne_empty (cfg : RouterConfigState) (n k : String)
    (h : alookup (apiKeys cfg) n = some k) : k ≠ "" :=
  loadApiKeys_snd_ne_empty cfg.models cfg.env (n, k) (alookup_mem _ _ _ h)

/-! Concrete configuration values used by witnesses; these are entries of
the source's DEFAULT_CONFIG. -/

/-- The `deepseek` entry of DEFAULT_CONFIG in `config.ts`. -/
def deepseekConfig : ModelConfig :=
  { display_name := "DeepSeek V3.2"
    provider := "deepseek"
    model_id := "deepseek-chat"
    base_url := "https://api.deepseek.com/anthropic"
    api_key_env := "DEEPSEEK_API_KEY"
    auth_header := some "x-api-key"
    supports_streaming := some true
    supports_tools := some true
    max_tokens := some 8192
    context_window := some 64000 }

/-- The `kimi` entry of DEFAULT_CONFIG in `config.ts`. -/
def kimiConfig : ModelConfig :=
  { display_name := "Kimi K2 Thinking"
    provider := "moonshot"
    model_id := "kimi-for-coding"
    base_url := "https://api.kimi.com/coding/"
    api_key_env := "KIMI_API_KEY"
    auth_header := some "x-api-key"
    supports_streaming := some true
    supports_tools := some true
    max_tokens := some 32768
    context_window := some 262144 }

/-- A deepseek-like provider entry with no configured output ceiling. -/
def noCeilingConfig : ModelConfig :=
  { deepseekConfig with max_tokens := none }

/-- Witness configuration: one registered model, one alias, no credential
in the environment. -/
def cfgNoKey : RouterConfigState :=
  ⟨[("deepseek", deepseekConfig)], [("ds", "deepseek")], []⟩

/-- Witness configuration: two registered models, one alias, no
credentials. -/
def cfgTwoModels : RouterConfigState :=
  ⟨[("deepseek", deepseekConfig), ("kimi", kimiConfig)], [("ds", "deepseek")], []⟩

/-- Witness configuration: one registered model, one alias, and the
model's credential present in the environment. -/
def cfgWithKey : RouterConfigState :=
  ⟨[("deepseek", deepseekConfig)], [("ds", "deepseek")], [("DEEPSEEK_API_KEY", "sk-test")]⟩

/-! Claim theorems. -/

/-- C3: for every inbound request in which the client set `max_tokens`
and every ModelConfig with a configured (nonzero) ceiling `c`, the
transformed body's `max_tokens` equals the requested value when it is at
most `c` and equals `c` when it exceeds `c`; when the client omitted
`max_tokens`, the transformed body carries none. (A configured ceiling of
0 is falsy in the source and means "no ceiling configured"; that case is
the subject of C10.) -/
theorem buildRequestBody_clamps_max_tokens {α : Type} (request : MessagesRequest α)
    (modelConfig : ModelConfig) (c : Nat)
    (hc : modelConfig.max_tokens = some c) (hc0 : c ≠ 0) :
    (∀ m, request.max_tokens = some m →
      (buildRequestBody request modelConfig).max_tokens =
        some (if m ≤ c then m else c)) ∧
    (request.max_tokens = none →
      (buildRequestBody request modelConfig).max_tokens = none) := by
  have he : effectiveMaxTokens modelConfig = c := by
    simp [effectiveMaxTokens, hc, hc0]
  constructor
  · intro m hm
    simp only [buildRequestBody, he, hm]
    by_cases hle : m ≤ c
    · rw [if_pos hle, if_neg (by omega)]
    · rw [if_neg hle, if_pos (by omega)]
  · intro hm
    simp [buildRequestBody, hm]

/-- Witness for C3 at the spec's concrete inputs: ceiling 8192, requests
of 999999, 100, and a request with no `max_tokens`. -/
theorem buildRequestBody_clamps_max_tokens_witness :
    (buildRequestBody (⟨"claude", some 999999, ()⟩ : MessagesRequest Unit)
      deepseekConfig).max_tokens = some 8192 ∧
    (buildRequestBody (⟨"claude", some 100, ()⟩ : MessagesRequest Unit)
      deepseekConfig).max_tokens = some 100 ∧
    (buildRequestBody (⟨"claude", none, ()⟩ : MessagesRequest Unit)
      deepseekConfig).max_tokens = none := by
  have h1 := (buildRequestBody_clamps_max_tokens
    (⟨"claude", some 999999, ()⟩ : MessagesRequest Unit) deepseekConfig 8192
    rfl (by decide)).1 999999 rfl
  have h2 := (buildRequestBody_clamps_max_tokens
    (⟨"claude", some 100, ()⟩ : MessagesRequest Unit) deepseekConfig 8192
    rfl (by decide)).1 100 rfl
  have h3 := (buildRequestBody_clamps_max_tokens
    (⟨"claude", none, ()⟩ : MessagesRequest Unit) deepseekConfig 8192
    rfl (by decide)).2 rfl
  refine ⟨by simpa using h1, by simpa using h2, h3⟩

/-- C7: the outbound body's `model` field equals the provider's
configured upstream model id — never the client-supplied name or alias —
and, the body being a shallow copy of the inbound request, every field
other than `model` and `max_tokens` is unchanged. -/
theorem buildRequestBody_model_substitution {α : Type} (request : MessagesRequest α)
    (modelConfig : ModelConfig) :
    (buildRequestBody request modelConfig).model = modelConfig.model_id ∧
    (buildRequestBody request modelConfig).extra = request.extra :=
  ⟨rfl, rfl⟩

/-- C10: when a ModelConfig's `max_tokens` is absent or zero (both falsy
in `modelConfig.max_tokens || 8192`), a client-supplied `max_tokens`
above 8192 is still clamped to the hard-coded 8192. -/
theorem buildRequestBody_default_ceiling {α : Type} (request : MessagesRequest α)
    (modelConfig : ModelConfig) (m : Nat)
    (hcfg : modelConfig.max_tokens = none ∨ modelConfig.max_tokens = some 0)
    (hreq : request.max_tokens = some m) (hm : 8192 < m) :
    (buildRequestBody request modelConfig).max_tokens = some 8192 := by
  have he : effectiveMaxTokens modelConfig = 8192 := by
    rcases hcfg with h | h <;> simp [effectiveMaxTokens, h]
  simp only [buildRequestBody, he, hreq]
  rw [if_pos ⟨by omega, hm⟩]

/-- Witness for C10: a provider entry with no configured ceiling clamps a
999999-token request to 8192. -/
theorem buildRequestBody_default_ceiling_witness :
    noCeilingConfig.max_tokens = none ∧
    (buildRequestBody (⟨"ds", some 999999, ()⟩ : MessagesRequest Unit)
      noCeilingConfig).max_tokens = some 8192 :=
  ⟨rfl, buildRequestBody_default_ceiling _ noCeilingConfig 999999 (Or.inl rfl) rfl
    (by decide)⟩

/-- C4: for a canonical model name `m` registered in the ModelConfig
mapping (and, per the spec's data model, not shadowed by an alias entry),
`resolveRoute m` succeeds iff a credential exists for `m` in the store
populated by `loadApiKeys`; when the credential is absent it fails with
an `authentication_error` / 401 whose message names the model's
configured environment variable. -/
theorem resolveRoute_credential_iff (cfg : RouterConfigState) (m : String)
    (mc : ModelConfig) (hm : alookup cfg.models m = some mc)
    (hna : alookup cfg.aliases m = none) :
    ((∃ r, resolveRoute cfg m = .ok r) ↔ (alookup (apiKeys cfg) m).isSome) ∧
    (alookup (apiKeys cfg) m = none →
      resolveRoute cfg m = .error ⟨authErrorMessage mc, 401, "authentication_error"⟩) ∧
    (∃ pre post, authErrorMessage mc = pre ++ mc.api_key_env ++ post) := by
  have hres : resolveModelName cfg m = m := by simp [resolveModelName, hna]
  have hgm : getModel cfg m = some mc := by simp [getModel, hm]
  have hkey : getApiKey cfg m = alookup (apiKeys cfg) m := by
    simp [getApiKey, hres]
  refine ⟨?_, ?_, ?_⟩
  · rcases hk : alookup (apiKeys cfg) m with _ | k
    · have hroute : resolveRoute cfg m =
          .error ⟨authErrorMessage mc, 401, "authentication_error"⟩ := by
        simp only [resolveRoute, hres, hgm, hkey, hk]
      constructor
      · rintro ⟨r, hr⟩
        rw [hroute] at hr
        simp at hr
      · intro hs
        simp at hs
    · have hkne : k ≠ "" := alookup_apiKeys_ne_empty cfg m k hk
      have hroute : resolveRoute cfg m = .ok ⟨m, mc, k⟩ := by
        simp only [resolveRoute, hres, hgm, hkey, hk]
        rw [if_neg hkne]
      exact ⟨fun _ => by simp, fun _ => ⟨_, hroute⟩⟩
  · intro hk
    simp only [resolveRoute, hres, hgm, hkey, hk]
  · exact ⟨"API key not configured for model \x27" ++ mc.display_name ++
      "\x27. Please set the ", " environment variable.", rfl⟩

/-- Witness for C4: in a configuration whose environment holds no
credential, resolving the registered model fails with the authentication
error naming its environment variable. -/
theorem resolveRoute_credential_iff_witness :
    ((∃ r, resolveRoute cfgNoKey "deepseek" = .ok r) ↔
      (alookup (apiKeys cfgNoKey) "deepseek").isSome) ∧
    resolveRoute cfgNoKey "deepseek" =
      .error ⟨authErrorMessage deepseekConfig, 401, "authentication_error"⟩ := by
  have h := resolveRoute_credential_iff cfgNoKey "deepseek" deepseekConfig
    (by decide) (by decide)
  exact ⟨h.1, h.2.1 (by decide)⟩

/-- C5: a requested name whose resolution yields no ModelConfig — an
unregistered name, a dangling alias whose (truthy) target is neither a
registered model nor an alias, or an alias with an empty (falsy) target
while the name itself is unregistered — makes `resolveRoute` fail, not
crash, with `invalid_model` / 400, and the message enumerates the
registered canonical model names, each exactly once (keys of a JS object
are unique, the `Nodup` hypothesis), joined untruncated. -/
theorem resolveRoute_invalid_model_enumerates (cfg : RouterConfigState) (n : String)
    (hnd : (cfg.models.map Prod.fst).Nodup)
    (h : (alookup cfg.models n = none ∧ alookup cfg.aliases n = none) ∨
         (∃ t, alookup cfg.aliases n = some t ∧ t ≠ "" ∧
           alookup cfg.models t = none ∧ alookup cfg.aliases t = none) ∨
         (∃ t, alookup cfg.aliases n = some t ∧ t = "" ∧
           alookup cfg.models n = none)) :
    resolveRoute cfg n = .error ⟨invalidModelMessage cfg n, 400, "invalid_model"⟩ ∧
    invalidModelMessage cfg n =
      "Model \x27" ++ n ++ "\x27 not found. Available models: " ++
        String.intercalate ", " (cfg.models.map Prod.fst) ∧
    ∀ k, (cfg.models.map Prod.fst).count k =
      if (alookup cfg.models k).isSome then 1 else 0 := by
  have hgm : getModel cfg (resolveModelName cfg n) = none := by
    rcases h with ⟨h1, h2⟩ | ⟨t, h1, h2, h3, h4⟩ | ⟨t, h1, h2, h3⟩
    · have hr : resolveModelName cfg n = n := by simp [resolveModelName, h2]
      rw [hr]
      simp [getModel, h1, h2]
    · have hr : resolveModelName cfg n = t := by simp [resolveModelName, h1, h2]
      rw [hr]
      simp [getModel, h3, h4]
    · have hr : resolveModelName cfg n = n := by simp [resolveModelName, h1, h2]
      rw [hr]
      simp [getModel, h3, h1, h2]
  refine ⟨by simp only [resolveRoute, hgm], rfl, ?_⟩
  intro k
  by_cases hmem : k ∈ cfg.models.map Prod.fst
  · rw [if_pos ((alookup_isSome_iff cfg.models k).mpr hmem)]
    exact List.count_eq_one_of_mem hnd hmem
  · rw [if_neg (fun hs => hmem ((alookup_isSome_iff cfg.models k).mp hs))]
    exact List.count_eq_zero.mpr hmem

/-- Witness for C5: resolving `"nonexistent"` against a two-model
configuration yields the invalid_model error whose message lists both
registered names. -/
theorem resolveRoute_invalid_model_enumerates_witness :
    resolveRoute cfgTwoModels "nonexistent" =
      .error ⟨invalidModelMessage cfgTwoModels "nonexistent", 400, "invalid_model"⟩ ∧
    invalidModelMessage cfgTwoModels "nonexistent" =
      "Model \x27nonexistent\x27 not found. Available models: deepseek, kimi" := by
  have h := resolveRoute_invalid_model_enumerates cfgTwoModels "nonexistent"
    (by decide) (Or.inl ⟨by decide, by decide⟩)
  exact ⟨h.1, by decide⟩

/-- C6: an alias `a` mapped to a registered canonical name `c` (nonempty,
and itself not an alias key — the spec's invariant that aliases point
directly at canonical names) routes identically to `c`: `resolveRoute`
returns the same result on both, name resolution sends the alias to its
target and the canonical name to itself, and unknown names pass through
unchanged. -/
theorem resolveRoute_alias_transparent (cfg : RouterConfigState) (a c : String)
    (mc : ModelConfig) (ha : alookup cfg.aliases a = some c) (hcne : c ≠ "")
    (hc : alookup cfg.models c = some mc) (hca : alookup cfg.aliases c = none) :
    resolveRoute cfg a = resolveRoute cfg c ∧
    resolveModelName cfg a = c ∧
    resolveModelName cfg c = c ∧
    ∀ n, alookup cfg.aliases n = none → resolveModelName cfg n = n := by
  have h1 : resolveModelName cfg a = c := by simp [resolveModelName, ha, hcne]
  have h2 : resolveModelName cfg c = c := by simp [resolveModelName, hca]
  have hgm : getModel cfg c = some mc := by simp [getModel, hc]
  refine ⟨?_, h1, h2, fun n hn => by simp [resolveModelName, hn]⟩
  simp only [resolveRoute, h1, h2, hgm]

/-- Witness for C6: the default alias `ds` routes identically to its
target `deepseek` when the credential is configured. -/
theorem resolveRoute_alias_transparent_witness :
    resolveRoute cfgWithKey "ds" = resolveRoute cfgWithKey "deepseek" ∧
    resolveModelName cfgWithKey "ds" = "deepseek" := by
  have h := resolveRoute_alias_transparent cfgWithKey "ds" "deepseek" deepseekConfig
    (by decide) (by decide) (by decide) (by decide)
  exact ⟨h.1, h.2.1⟩

/-- The spec's concrete two-event upstream byte sequence. -/
def twoEventStream : List Char :=
  strChars "event: x\ndata: 1\n\nevent: y\ndata: 2\n\n"

/-- C1: the event sequence yielded by the stream parser depends only on
the concatenation of the received chunks, not on chunk boundaries; in
particular the spec's two-event sequence split at any point yields
exactly the two events, each ending in a double newline. -/
theorem forwardStream_chunk_boundary_independent :
    (∀ chunks : List (List Char), runStream chunks = runStream [chunks.flatten]) ∧
    (∀ n : Nat, runStream [twoEventStream.take n, twoEventStream.drop n] =
      [strChars "event: x\ndata: 1\n\n", strChars "event: y\ndata: 2\n\n"]) ∧
    (∃ p, strChars "event: x\ndata: 1\n\n" = p ++ strChars "\n\n") ∧
    (∃ p, strChars "event: y\ndata: 2\n\n" = p ++ strChars "\n\n") := by
  refine ⟨runStream_concat, ?_, ⟨strChars "event: x\ndata: 1", by decide⟩,
    ⟨strChars "event: y\ndata: 2", by decide⟩⟩
  intro n
  rw [runStream_concat]
  simp only [List.flatten_cons, List.flatten_nil, List.append_nil,
    List.take_append_drop]
  decide

/-- C9: for every streaming call, the read loop's final buffer is exactly
the delimiter-free residue of the concatenated upstream input; when the
connection closes with that buffer containing non-whitespace data (its
`trim()` truthy) the remainder is yielded as one final event, and a
whitespace-only or empty buffer yields no further event. -/
theorem forwardStream_trailing_partial_event (chunks : List (List Char)) :
    runStreamAux chunks = processBuffer chunks.flatten ∧
    containsDD (runStreamAux chunks).2 = false ∧
    (jsTrimNonempty (runStreamAux chunks).2 = true →
      runStream chunks =
        (runStreamAux chunks).1 ++ [(runStreamAux chunks).2 ++ ['\n', '\n']]) ∧
    (jsTrimNonempty (runStreamAux chunks).2 = false →
      runStream chunks = (runStreamAux chunks).1) := by
  refine ⟨runStreamAux_eq chunks, ?_, ?_, ?_⟩
  · rw [runStreamAux_eq chunks]
    simpa [processBuffer] using containsDD_sseSplit_snd chunks.flatten
  · intro h
    simp [runStream, h]
  · intro h
    simp [runStream, h]

/-- Witness for C9: a stream closing with the partial tail `"partial"`
still buffered yields it as a final delimiter-terminated event. -/
theorem forwardStream_trailing_partial_event_witness :
    jsTrimNonempty (runStreamAux [strChars "data: 1\n\npartial"]).2 = true ∧
    runStream [strChars "data: 1\n\npartial"] =
      [strChars "data: 1\n\n", strChars "partial\n\n"] := by
  have h := (forwardStream_trailing_partial_event [strChars "data: 1\n\npartial"]).2.2.1
    (by decide)
  refine ⟨by decide, ?_⟩
  rw [h]
  decide

/-- C8: a non-2xx initial upstream response makes the streaming path
yield exactly one SSE-framed error event — an `event: error` line
followed by a JSON `data:` payload, terminated by a double newline — and
no data events before or after it, whatever the body would have held. -/
theorem forwardStream_non2xx_single_error (timeoutSecs status : Nat)
    (errorMessage : String) (body : Option StreamBody)
    (h : respOk status = false) :
    forwardStream timeoutSecs (.response status errorMessage body) =
      [sseErrorEvent "api_error" errorMessage] ∧
    sseErrorEvent "api_error" errorMessage =
      strChars "event: error\ndata: " ++ errorEventJson "api_error" errorMessage ++
        strChars "\n\n" := by
  constructor
  · simp [forwardStream, h]
  · rfl

/-- Witness for C8: a 404 initial response yields the single api_error
event. -/
theorem forwardStream_non2xx_single_error_witness :
    respOk 404 = false ∧
    forwardStream 300 (.response 404 "Not Found" none) =
      [sseErrorEvent "api_error" "Not Found"] :=
  ⟨by decide,
    (forwardStream_non2xx_single_error 300 404 "Not Found" none (by decide)).1⟩

/-- C2 (divergence evidence): during streaming, a deadline expiry
(AbortError) is indeed synthesized as a `timeout_error` naming the
elapsed timeout in seconds, but any other transport failure is
synthesized with error type `internal_error` — not the
`connection_error` the non-streaming path produces for the same failure:
the catch block of `forwardStream` initializes `errorType` to
`internal_error` and only reassigns it for AbortError, while
`forwardRequest` maps the same failure to `connection_error` / 502. -/
theorem forwardStream_transport_error_type :
    forwardStream 300 (.fetchError (some ⟨"TypeError", "fetch failed"⟩)) =
      [sseErrorEvent "internal_error" "fetch failed"] ∧
    sseErrorEvent "internal_error" "fetch failed" ≠
      sseErrorEvent "connection_error" "fetch failed" ∧
    forwardStream 300 (.fetchError (some ⟨"AbortError", "This operation was aborted"⟩)) =
      [sseErrorEvent "timeout_error" "Request timed out after 300s"] ∧
    forwardRequest 300 "deepseek"
        (.fetchError (some ⟨"TypeError", "fetch failed"⟩) : RequestOutcome Unit) =
      .error ⟨"Connection error: fetch failed", 502, "connection_error"⟩ := by
  refine ⟨by decide, by decide, by decide, rfl⟩

end ModelRouter
